import Mathlib

/-!
# Shallow embedding of the claudia settings-persistence components

This file embeds the two persistence components of the repository —
`WindowPersistenceService` (src/src/services/windowPersistence.ts) and
`ConsentManager` (the analytics consent manager) — as executable Lean
definitions, and proves the testable properties of the specification
against them.

Modelling conventions:
* `localStorage` is an opaque synchronous string store; each component owns
  disjoint keys, so each component's slice of storage is modelled as a small
  structure of `Option` values (one per key).
* A value stored under the window-size key is either a string that
  `JSON.parse` rejects, or one that parses to a `{width, height, timestamp}`
  object; numbers are modelled as `Int` (JSON numbers, JS comparisons).
* The debounce timer is modelled by an explicit trace semantics: the service
  state carries the deadline of the (at most one) pending deferred save, and
  a run processes timestamped events in order, firing the pending timer
  whenever its deadline has been reached.
* `JSON.parse` failure, a throwing storage backend, and platform-call
  failures are explicit inputs of the embedded functions; JS truthiness of
  optional fields is made explicit by helper functions.
-/

/-! ## WindowPersistenceService: data model -/

/-- The `WindowSize` record persisted under `claudia_window_size`
(windowPersistence.ts lines 12-16). JSON numbers are modelled as `Int`. -/
structure WindowSize where
  width : Int
  height : Int
  timestamp : Int
deriving DecidableEq, Repr

/-- A raw value found under the window-size key: either a string that
`JSON.parse` throws on, or one that parses to a size-shaped object. -/
inductive StoredWS where
  | unparseable
  | parsed (w : WindowSize)
deriving DecidableEq, Repr

/-- The slice of `localStorage` owned by the service: the
`claudia_window_size` value and the raw string stored under
`claudia_window_persistence_enabled`. -/
structure WPStorage where
  windowSize : Option StoredWS
  persistenceEnabled : Option String
deriving DecidableEq, Repr

namespace WindowPersistenceService

/-- Embeds `isEnabled()` (lines 24-28): `enabled === null || enabled === 'true'`. -/
def isEnabled (st : WPStorage) : Bool :=
  match st.persistenceEnabled with
  | none => true
  | some v => v = "true"

/-- Embeds `clearWindowSize()` (lines 124-127): removes the stored record. -/
def clearWindowSize (st : WPStorage) : WPStorage :=
  { st with windowSize := none }

/-- Embeds `setEnabled(enabled)` (lines 33-39): stores `String(enabled)` under the
flag key; when disabling, additionally clears the saved size. The pending
debounce timer is NOT touched. -/
def setEnabled (st : WPStorage) (enabled : Bool) : WPStorage :=
  let st1 := { st with persistenceEnabled := some (if enabled then "true" else "false") }
  if !enabled then clearWindowSize st1 else st1

/-- Embeds `getSavedWindowSize()` (lines 107-119): `null` when disabled, absent or
unparseable; otherwise the parsed record as-is (no range validation). -/
def getSavedWindowSize (st : WPStorage) : Option WindowSize :=
  if !isEnabled st then none
  else
    match st.windowSize with
    | none => none
    | some .unparseable => none
    | some (.parsed w) => some w

/-- Embeds `restoreWindowSize()` (lines 75-102). `getWinOk` models whether
`getCurrentWindow()` succeeds, `setSizeOk` whether `window.setSize` succeeds.
Returns the boolean result together with the list of resize calls issued
(width, height). -/
def restoreWindowSize (st : WPStorage) (getWinOk setSizeOk : Bool) :
    Bool × List (Int × Int) :=
  if !isEnabled st then (false, [])
  else
    match st.windowSize with
    | none => (false, [])
    | some .unparseable => (false, [])
    | some (.parsed w) =>
      if w.width = 0 || w.height = 0 ||
          w.width < 400 || w.height < 300 ||
          w.width > 4000 || w.height > 3000 then
        (false, [])
      else if !getWinOk then (false, [])
      else if setSizeOk then (true, [(w.width, w.height)])
      else (false, [(w.width, w.height)])

/-! ### Debounce trace semantics (`saveWindowSize`, lines 44-70)

`saveWindowSize()` checks the enabled flag, cancels any pending timer and
schedules the deferred write 500ms out.  The deferred callback — executed
when the timer fires — reads the window's current inner size and writes
`{width, height, timestamp: Date.now()}` WITHOUT re-checking the enabled
flag.  The service state below carries the storage slice and the deadline
of the pending timer; `dims t` gives the platform window's inner size at
time `t`. -/

/-- The debounce interval of `saveWindowSize` (line 69). -/
def debounceMs : Nat := 500

/-- Service state: storage plus the deadline of the pending debounced save
(`saveTimeout`, line 19). -/
structure SvcState where
  storage : WPStorage
  pending : Option Nat
deriving DecidableEq, Repr

/-- External events driving the service. -/
inductive WPEv where
  | save
  | setEnabledEv (b : Bool)
deriving DecidableEq, Repr

/-- The body of the deferred `setTimeout` callback (lines 53-68), run at
time `t`: read the current inner size, write the record.  Faithful detail:
the callback does not consult `isEnabled`. -/
def runDeferredSave (dims : Nat → Int × Int) (t : Nat) (st : SvcState) :
    SvcState × List WindowSize :=
  let w : WindowSize := ⟨(dims t).1, (dims t).2, (t : Int)⟩
  ({ storage := { st.storage with windowSize := some (.parsed w) }, pending := none }, [w])

/-- Fire the pending timer if its deadline has been reached by time `t`. -/
def fireDue (dims : Nat → Int × Int) (st : SvcState) (t : Nat) :
    SvcState × List WindowSize :=
  match st.pending with
  | some d => if d ≤ t then runDeferredSave dims d st else (st, [])
  | none => (st, [])

/-- Process one timestamped event: first let an expired timer fire, then
run the event.  `save` is `saveWindowSize()` at time `t`: no-op when
disabled, otherwise cancel-and-reschedule the timer `debounceMs` out
(lines 45-69).  `setEnabledEv b` is `setEnabled(b)`: it updates storage
only and leaves the timer pending (lines 33-39). -/
def stepEv (dims : Nat → Int × Int) (st : SvcState) (e : Nat × WPEv) :
    SvcState × List WindowSize :=
  let (st1, ws1) := fireDue dims st e.1
  match e.2 with
  | .save =>
    if isEnabled st1.storage then
      ({ st1 with pending := some (e.1 + debounceMs) }, ws1)
    else (st1, ws1)
  | .setEnabledEv b =>
    ({ st1 with storage := setEnabled st1.storage b }, ws1)

/-- Run a time-ordered list of events, collecting all persisted writes. -/
def runEvents (dims : Nat → Int × Int) (st : SvcState) :
    List (Nat × WPEv) → SvcState × List WindowSize
  | [] => (st, [])
  | e :: es =>
    let (st1, ws1) := stepEv dims st e
    let (st2, ws2) := runEvents dims st1 es
    (st2, ws1 ++ ws2)

/-- Run the events and then let any still-pending timer fire at its
deadline (the quiescent end of the trace). -/
def runTrace (dims : Nat → Int × Int) (st : SvcState) (evs : List (Nat × WPEv)) :
    SvcState × List WindowSize :=
  let (st1, ws1) := runEvents dims st evs
  match st1.pending with
  | some d =>
    let (st2, ws2) := runDeferredSave dims d st1
    (st2, ws1 ++ ws2)
  | none => (st1, ws1)

/-- Builds the `saveWindowSize()` call events at the given times. -/
def saveEvents (ts : List Nat) : List (Nat × WPEv) :=
  ts.map (fun t => (t, WPEv.save))

/-- Predicate `chainLt d ts`: each time in `ts` arrives strictly before the deadline
rescheduled by its predecessor (`d` is the deadline pending on entry). -/
def chainLt : Nat → List Nat → Bool
  | _, [] => true
  | d, t :: ts => decide (t < d) && chainLt (t + debounceMs) ts

/-- The deadline pending after a burst of save calls: 500ms past the last
call time (`d` on the empty burst). -/
def finalDeadline : Nat → List Nat → Nat
  | d, [] => d
  | _, t :: ts => finalDeadline (t + debounceMs) ts

end WindowPersistenceService

/-! ## ConsentManager: data model

The analytics consent manager persists one `AnalyticsSettings` JSON record
under `claudia-analytics-settings`.  The TypeScript interface is external to
the repository slice; at runtime a record parsed from storage may lack any
field, so every field is an `Option` here, and JS truthiness of the fields
the code branches on is made explicit (`undefined` is `none`; an empty
string is falsy). -/

/-- The `AnalyticsSettings` record as it exists at runtime: a JS object in
which any field may be absent. -/
structure AnalyticsSettings where
  enabled : Option Bool := none
  hasConsented : Option Bool := none
  hasSeenBanner : Option Bool := none
  userId : Option String := none
  sessionId : Option String := none
  consentDate : Option String := none
deriving DecidableEq, Repr

/-- JS truthiness of an optional boolean field (`undefined` is falsy). -/
def boolTruthy : Option Bool → Bool
  | none => false
  | some b => b

/-- JS truthiness of an optional string field (`undefined` and `""` are
falsy). -/
def strTruthy : Option String → Bool
  | none => false
  | some s => !s.isEmpty

namespace ConsentManager

/-- The default settings literal of `initialize()` (lines 26-30 and 57-69):
`{enabled: false, hasConsented: false, hasSeenBanner: false}`. -/
def defaultSettings : AnalyticsSettings :=
  { enabled := some false, hasConsented := some false, hasSeenBanner := some false }

/-- One hexadecimal digit, lower case, as produced by `v.toString(16)`. -/
def hexDigit (n : Nat) : Char :=
  (String.toList "0123456789abcdef").getD (n % 16) '0'

/-- One character of the UUID template under `generateAnonymousId`'s
replacer (lines 160-164): `r` models `(Math.random() * 16) | 0`; an `x`
becomes the digit `r`, a `y` becomes the digit `(r & 0x3) | 0x8`. -/
def uuidChar (c : Char) (r : Nat) : Char :=
  if c = 'x' then hexDigit r
  else if c = 'y' then hexDigit (r % 4 + 8)
  else c

/-- Apply the replacer over the template characters, consuming one random
draw per `x`/`y` (draws past the end of the list are read as 0). -/
def applyTemplate : List Char → List Nat → List Char
  | [], _ => []
  | c :: cs, rs =>
    if c = 'x' ∨ c = 'y' then uuidChar c (rs.headD 0) :: applyTemplate cs rs.tail
    else c :: applyTemplate cs rs

/-- The template string of `generateAnonymousId` (line 160). -/
def uuidTemplate : List Char := String.toList "xxxxxxxx-xxxx-4xxx-yxxx-xxxxxxxxxxxx"

/-- Embeds `generateAnonymousId()` (lines 158-165): the UUID-v4-shaped string
obtained from the template and a sequence of random draws. -/
def generateAnonymousId (rands : List Nat) : String :=
  String.mk (applyTemplate uuidTemplate rands)

/-- Embeds `generateSessionId()` (lines 167-170):
`` `${Date.now()}-${Math.random().toString(36).substr(2, 9)}` ``. -/
def generateSessionId (now : Nat) (randPart : String) : String :=
  toString now ++ "-" ++ randPart

/-- Outcome of the load-and-parse step of `initialize()` (lines 21-23):
`localStorage.getItem` may throw; a present string is fed to `JSON.parse`,
which may throw or yield a settings-shaped object (`getItem` returning
`null` is `absent`). -/
inductive LoadResult where
  | throwOnGet
  | absent
  | parseError
  | parsedRecord (a : AnalyticsSettings)
deriving DecidableEq, Repr

/-- The external inputs of one `initialize()` call: the load outcome, the
random draws consumed by `generateAnonymousId`, and `Date.now()` plus the
random base36 part consumed by `generateSessionId`. -/
structure InitEnv where
  loadResult : LoadResult
  rands : List Nat
  now : Nat
  sessRand : String
deriving DecidableEq, Repr

/-- Result of `initialize()`: the returned record, the new in-memory
`this.settings`, and the list of records passed to `localStorage.setItem`
by `saveSettings()` calls (in order; `saveSettings` swallows its own
storage errors, so the attempts are recorded regardless). -/
structure InitResult where
  ret : AnalyticsSettings
  state : Option AnalyticsSettings
  writes : List AnalyticsSettings
deriving DecidableEq, Repr

/-- Lines 33-55 of `initialize()`, starting from the loaded-or-default
record `s0`: backfill `userId` when falsy and persist (lines 33-37),
regenerate `sessionId` (lines 39-42), then backfill `hasSeenBanner` when
the field is absent — inferring it from the truthiness of `hasConsented`,
`consentDate` and the CURRENT `userId` field — and persist (lines 44-55). -/
def initAfterLoad (s0 : AnalyticsSettings) (env : InitEnv) : InitResult :=
  let (s1, w1) :=
    if strTruthy s0.userId then (s0, ([] : List AnalyticsSettings))
    else
      let s := { s0 with userId := some (generateAnonymousId env.rands) }
      (s, [s])
  let s2 := { s1 with sessionId := some (generateSessionId env.now env.sessRand) }
  let (s3, w3) :=
    if s2.hasSeenBanner.isNone then
      let hasInteractedBefore :=
        boolTruthy s2.hasConsented || strTruthy s2.consentDate || strTruthy s2.userId
      let s := { s2 with hasSeenBanner := some hasInteractedBefore }
      (s, [s])
    else (s2, [])
  ⟨s3, some s3, w1 ++ w3⟩

/-- Embeds `initialize()` (lines 18-71) from prior in-memory settings `prior`.
The `try` block wraps everything: when `getItem` or `JSON.parse` throws,
the `catch` returns the default settings literal without touching storage
or the in-memory state — so the embedded function is total and the caller
never sees an exception. -/
def initializeSettings (prior : Option AnalyticsSettings) (env : InitEnv) : InitResult :=
  match env.loadResult with
  | .throwOnGet => ⟨defaultSettings, prior, []⟩
  | .parseError => ⟨defaultSettings, prior, []⟩
  | .absent => initAfterLoad defaultSettings env
  | .parsedRecord a => initAfterLoad a env

/-- Embeds `grantConsent()` (lines 73-84) from in-memory settings `st`: when
`st` is `none` it first runs `initialize()`; the subsequent non-null
assertion `this.settings!` throws a `TypeError` (modelled as `.error`)
if the settings are still `null`.  Otherwise sets `enabled`,
`hasConsented`, `hasSeenBanner` to `true`, stamps `consentDate` with the
current ISO time `now`, and persists.  Returns the new settings and the
write list. -/
def grantConsent (st : Option AnalyticsSettings) (env : InitEnv) (now : String) :
    Except Unit (AnalyticsSettings × List AnalyticsSettings) :=
  let (st1, w1) :=
    match st with
    | some s => (some s, ([] : List AnalyticsSettings))
    | none =>
      let r := initializeSettings none env
      (r.state, r.writes)
  match st1 with
  | none => .error ()
  | some s =>
    let s1 := { s with enabled := some true, hasConsented := some true,
                       hasSeenBanner := some true, consentDate := some now }
    .ok (s1, w1 ++ [s1])

/-- Embeds `revokeConsent()` (lines 86-96) from in-memory settings `st`: ensures
initialization as in `grantConsent`; sets `enabled := false`,
`hasSeenBanner := true`, stamps `consentDate`, persists.  `hasConsented`
is not written. -/
def revokeConsent (st : Option AnalyticsSettings) (env : InitEnv) (now : String) :
    Except Unit (AnalyticsSettings × List AnalyticsSettings) :=
  let (st1, w1) :=
    match st with
    | some s => (some s, ([] : List AnalyticsSettings))
    | none =>
      let r := initializeSettings none env
      (r.state, r.writes)
  match st1 with
  | none => .error ()
  | some s =>
    let s1 := { s with enabled := some false, hasSeenBanner := some true,
                       consentDate := some now }
    .ok (s1, w1 ++ [s1])

/-- Embeds `deleteAllData()` (lines 98-112): removes the stored record, replaces
the in-memory settings with a fresh literal — `enabled`, `hasConsented`,
`hasSeenBanner` all `false`, newly generated `userId` and `sessionId`, no
`consentDate` — and persists it.  The prior settings are not consulted. -/
def deleteAllData (env : InitEnv) : AnalyticsSettings × List AnalyticsSettings :=
  let s : AnalyticsSettings :=
    { enabled := some false, hasConsented := some false, hasSeenBanner := some false,
      userId := some (generateAnonymousId env.rands),
      sessionId := some (generateSessionId env.now env.sessRand),
      consentDate := none }
  (s, [s])

end ConsentManager

/-! ## Concrete instances used by the theorems -/

/-- Window-dimension timeline exercising the debounced save: the window
measures 1000×800 until time 600 and 1920×1080 from then on. -/
def cexDims : Nat → Int × Int := fun t => if 600 ≤ t then (1920, 1080) else (1000, 800)

/-- A stored consent record written by a pre-`hasSeenBanner` version for a
user who never interacted: no consent, no consent date, no user id, and no
`hasSeenBanner` field. -/
def storedNoInteraction : AnalyticsSettings :=
  { enabled := some false, hasConsented := some false }

/-- Prior in-memory settings whose `userId` happens to be exactly the
anonymous id produced by `generateAnonymousId` when every random draw
is 0. -/
def collisionPrior : AnalyticsSettings :=
  { enabled := some true, hasConsented := some true, hasSeenBanner := some true,
    userId := some "00000000-0000-4000-8000-000000000000",
    sessionId := some "1-a", consentDate := some "2024-01-01T00:00:00.000Z" }

/-! ## Helper lemmas -/

namespace WindowPersistenceService

/-- A burst of `saveWindowSize()` calls in which each call arrives strictly
before the pending deadline never fires the timer: it only pushes the
deadline to `finalDeadline` and produces no write. -/
theorem runEvents_saves_chain (dims : Nat → Int × Int) (stor : WPStorage)
    (d : Nat) (ts : List Nat) (hen : isEnabled stor = true)
    (hchain : chainLt d ts = true) :
    runEvents dims ⟨stor, some d⟩ (saveEvents ts) =
      (⟨stor, some (finalDeadline d ts)⟩, []) := by
  induction ts generalizing d with
  | nil => simp [runEvents, saveEvents, finalDeadline]
  | cons t ts ih =>
    simp only [chainLt, Bool.and_eq_true, decide_eq_true_eq] at hchain
    obtain ⟨hlt, hchain2⟩ := hchain
    have hfire : fireDue dims ⟨stor, some d⟩ t = (⟨stor, some d⟩, []) := by
      simp [fireDue, Nat.not_le.mpr hlt]
    simp only [runEvents, saveEvents, List.map_cons, stepEv, hfire, hen, finalDeadline,
      if_true, List.nil_append]
    simpa [saveEvents] using ih (t + debounceMs) hchain2

end WindowPersistenceService

/-! ## Claim theorems -/

/-- C1: the spec claims that for a stored record lacking `hasSeenBanner`,
`initialize()` backfills `hasSeenBanner := true` iff `hasConsented`,
`consentDate` or `userId` is present/truthy in the stored record, else
`false`.  The code contradicts this (and its own inline comment, which says
the `userId` check detects prior interaction): the `userId` backfill at
lines 33-37 runs BEFORE the `hasSeenBanner` check at lines 44-55, so at the
check `this.settings.userId` is always a freshly generated, truthy string
and the backfill always writes `true`.  Here the stored record has none of
the three fields present/truthy, yet the returned record has
`hasSeenBanner = true`. -/
theorem initializeSettings_backfill_true_despite_no_interaction :
    storedNoInteraction.hasSeenBanner = none ∧
    boolTruthy storedNoInteraction.hasConsented = false ∧
    strTruthy storedNoInteraction.consentDate = false ∧
    strTruthy storedNoInteraction.userId = false ∧
    (ConsentManager.initializeSettings none
        ⟨.parsedRecord storedNoInteraction, [], 0, "abc"⟩).ret.hasSeenBanner = some true :=
  ⟨rfl, rfl, rfl, rfl, rfl⟩

namespace WindowPersistenceService

/-- C2 (amended): starting quiescent with persistence enabled, a burst of
`saveWindowSize()` calls at `t0 :: ts` in which every call arrives strictly
before the deadline scheduled by its predecessor produces exactly one
persisted write; the written dimensions are those the platform window
reports when the debounce timer fires — `debounceMs` after the LAST call
(`finalDeadline (t0 + debounceMs) ts`), not at the time of the last call
itself — and the written timestamp is that fire time. -/
theorem saveWindowSize_debounce_single_write (dims : Nat → Int × Int)
    (stor : WPStorage) (t0 : Nat) (ts : List Nat)
    (hen : isEnabled stor = true)
    (hchain : chainLt (t0 + debounceMs) ts = true) :
    (runTrace dims ⟨stor, none⟩ (saveEvents (t0 :: ts))).2 =
      [⟨(dims (finalDeadline (t0 + debounceMs) ts)).1,
        (dims (finalDeadline (t0 + debounceMs) ts)).2,
        (finalDeadline (t0 + debounceMs) ts : Int)⟩] := by
  have h1 : stepEv dims ⟨stor, none⟩ (t0, WPEv.save) =
      (⟨stor, some (t0 + debounceMs)⟩, []) := by
    simp [stepEv, fireDue, hen]
  have h2 := runEvents_saves_chain dims stor (t0 + debounceMs) ts hen hchain
  simp only [saveEvents] at h2
  simp [runTrace, saveEvents, runEvents, h1, h2, runDeferredSave]

/-- Witness for C2 (amended): two calls at times 0 and 100 with a constant
1920×1080 window yield exactly one write, stamped at the fire time 600. -/
theorem saveWindowSize_debounce_single_write_witness :
    isEnabled ⟨none, none⟩ = true ∧
    chainLt (0 + debounceMs) [100] = true ∧
    (runTrace (fun _ => ((1920 : Int), (1080 : Int))) ⟨⟨none, none⟩, none⟩
      (saveEvents [0, 100])).2 = [⟨1920, 1080, 600⟩] := by
  refine ⟨rfl, by decide, ?_⟩
  have h := saveWindowSize_debounce_single_write (fun _ => ((1920 : Int), (1080 : Int)))
    ⟨none, none⟩ 0 [100] rfl (by decide)
  simpa using h

/-- C2 counterexample (the claim as stated is false): with the window at
1000×800 up to time 600 and 1920×1080 from then on, two `saveWindowSize()`
calls at times 0 and 100 persist exactly one record — but its dimensions
are 1920×1080, read when the timer fires at time 600, whereas the
dimensions current at the time of the last call (time 100) were 1000×800. -/
theorem saveWindowSize_writes_fire_time_dims :
    (runTrace cexDims ⟨⟨none, none⟩, none⟩ (saveEvents [0, 100])).2 =
      [⟨1920, 1080, 600⟩] ∧
    cexDims 100 = (1000, 800) ∧
    ((1920 : Int), (1080 : Int)) ≠ ((1000 : Int), (800 : Int)) := by
  refine ⟨by decide, by decide, by decide⟩

end WindowPersistenceService

namespace WindowPersistenceService

/-- C3: with persistence enabled and a parsed stored record, if the width is
outside [400, 4000] or the height outside [300, 3000], `restoreWindowSize()`
returns `false` and issues no resize call (whatever the platform does);
if the record is within bounds (and the platform calls succeed, the case the
spec describes), it issues exactly one resize call with exactly the stored
width and height and returns `true`. -/
theorem restoreWindowSize_bounds (st : WPStorage) (w : WindowSize)
    (hen : isEnabled st = true) (hst : st.windowSize = some (.parsed w)) :
    ((w.width < 400 ∨ 4000 < w.width ∨ w.height < 300 ∨ 3000 < w.height) →
      ∀ gOk sOk, restoreWindowSize st gOk sOk = (false, [])) ∧
    ((400 ≤ w.width ∧ w.width ≤ 4000 ∧ 300 ≤ w.height ∧ w.height ≤ 3000) →
      restoreWindowSize st true true = (true, [(w.width, w.height)])) := by
  constructor
  · intro hout gOk sOk
    rcases hout with h | h | h | h <;>
      simp [restoreWindowSize, hen, hst, h]
  · rintro ⟨h1, h2, h3, h4⟩
    have hw0 : ¬ w.width = 0 := by omega
    have hh0 : ¬ w.height = 0 := by omega
    simp [restoreWindowSize, hen, hst, hw0, hh0]
    omega

/-- Witness for C3: the spec's own examples.  A stored 200×200 record
(below minimum) makes `restoreWindowSize()` return `false` with no resize
call; a stored 1920×1080 record makes it return `true` with exactly one
resize call carrying those values. -/
theorem restoreWindowSize_bounds_witness :
    restoreWindowSize ⟨some (.parsed ⟨200, 200, 0⟩), none⟩ true true = (false, []) ∧
    restoreWindowSize ⟨some (.parsed ⟨1920, 1080, 0⟩), none⟩ true true =
      (true, [(1920, 1080)]) := by
  constructor
  · exact (restoreWindowSize_bounds ⟨some (.parsed ⟨200, 200, 0⟩), none⟩ ⟨200, 200, 0⟩
      rfl rfl).1 (Or.inl (by decide)) true true
  · exact (restoreWindowSize_bounds ⟨some (.parsed ⟨1920, 1080, 0⟩), none⟩ ⟨1920, 1080, 0⟩
      rfl rfl).2 ⟨by decide, by decide, by decide, by decide⟩

end WindowPersistenceService

/-- C4: whenever the load-or-parse step of `initialize()` fails — the
storage backend throws on `getItem`, or `JSON.parse` throws on the stored
string (for every stored string, the parse either succeeds or throws; all
throwing strings are the `parseError` outcome) — the call returns exactly
the default settings `{enabled: false, hasConsented: false, hasSeenBanner:
false}`, performs no persistence write, and leaves the in-memory state
untouched.  The embedded `initializeSettings` is a total function: the
`try/catch` of lines 18-71 converts every such failure into this return
value, so no exception reaches the caller. -/
theorem initializeSettings_load_failure_defaults (prior : Option AnalyticsSettings)
    (env : ConsentManager.InitEnv)
    (h : env.loadResult = .throwOnGet ∨ env.loadResult = .parseError) :
    ConsentManager.initializeSettings prior env =
      ⟨ConsentManager.defaultSettings, prior, []⟩ := by
  rcases h with h | h <;> simp [ConsentManager.initializeSettings, h]

/-- Witness for C4: a throwing backend with no prior in-memory settings. -/
theorem initializeSettings_load_failure_defaults_witness :
    ConsentManager.initializeSettings none ⟨.throwOnGet, [], 0, "a"⟩ =
      ⟨ConsentManager.defaultSettings, none, []⟩ :=
  initializeSettings_load_failure_defaults none ⟨.throwOnGet, [], 0, "a"⟩ (Or.inl rfl)

/-- C5 (amended): `deleteAllData()` always yields `hasConsented = false`,
`hasSeenBanner = false`, `enabled = false`, persists exactly that record,
and replaces `userId` with `generateAnonymousId` applied to the fresh
random draws — which differs from the prior `userId` exactly when the
generated string differs, a difference the non-cryptographic generator
does not guarantee. -/
theorem deleteAllData_resets (env : ConsentManager.InitEnv) :
    (ConsentManager.deleteAllData env).1.hasConsented = some false ∧
    (ConsentManager.deleteAllData env).1.hasSeenBanner = some false ∧
    (ConsentManager.deleteAllData env).1.enabled = some false ∧
    (ConsentManager.deleteAllData env).1.userId =
      some (ConsentManager.generateAnonymousId env.rands) ∧
    (ConsentManager.deleteAllData env).2 = [(ConsentManager.deleteAllData env).1] :=
  ⟨rfl, rfl, rfl, rfl, rfl⟩

/-- C5 counterexample: the claim that the post-`deleteAllData()` `userId`
always differs from a prior one fails when the random draws regenerate the
prior id.  `collisionPrior` holds the id generated from all-zero draws;
running `deleteAllData()` with all-zero draws yields the very same
`userId`. -/
theorem deleteAllData_userId_collision :
    collisionPrior.userId.isSome = true ∧
    (ConsentManager.deleteAllData ⟨.absent, [], 7, "zzz"⟩).1.userId =
      collisionPrior.userId :=
  ⟨rfl, rfl⟩

/-- C6: for every existing prior settings record, `revokeConsent()` yields
a record with `enabled = false` and `hasSeenBanner = true`, stamps
`consentDate` with the current time, persists exactly that record, and
leaves `hasConsented` at its prior value. -/
theorem revokeConsent_spec (s : AnalyticsSettings) (env : ConsentManager.InitEnv)
    (now : String) :
    ∃ s1, ConsentManager.revokeConsent (some s) env now = .ok (s1, [s1]) ∧
      s1.enabled = some false ∧ s1.hasSeenBanner = some true ∧
      s1.consentDate = some now ∧ s1.hasConsented = s.hasConsented :=
  ⟨_, rfl, rfl, rfl, rfl, rfl⟩

/-- C7: for every existing prior settings record, `grantConsent()` yields a
record with `enabled = true`, `hasConsented = true`, `hasSeenBanner = true`
and `consentDate` stamped with the current time, and persists exactly the
updated record. -/
theorem grantConsent_spec (s : AnalyticsSettings) (env : ConsentManager.InitEnv)
    (now : String) :
    ∃ s1, ConsentManager.grantConsent (some s) env now = .ok (s1, [s1]) ∧
      s1.enabled = some true ∧ s1.hasConsented = some true ∧
      s1.hasSeenBanner = some true ∧ s1.consentDate = some now :=
  ⟨_, rfl, rfl, rfl, rfl, rfl⟩

namespace WindowPersistenceService

/-- C8: `isEnabled()` returns `true` whenever the persistence flag key is
absent from storage; `setEnabled(false)` immediately removes the stored
window-size record; and from any storage state — in particular one holding
a prior window-size record — `setEnabled(false)` followed by
`getSavedWindowSize()` returns `null`. -/
theorem setEnabled_false_clears_and_hides (st : WPStorage) :
    isEnabled { st with persistenceEnabled := none } = true ∧
    (setEnabled st false).windowSize = none ∧
    getSavedWindowSize (setEnabled st false) = none :=
  ⟨rfl, rfl, rfl⟩

/-- C9: a debounced save scheduled while persistence is enabled survives
`setEnabled(false)`.  If `saveWindowSize()` runs at `t1` (enabled) and
`setEnabled(false)` runs at `t2` before the timer's deadline
`t1 + debounceMs`, the deferred callback still fires at the deadline —
it never re-reads the enabled flag — and writes the window-size record,
so the final storage is disabled yet holds a stored size record that
postdates the clearing done by `setEnabled(false)`. -/
theorem savePending_survives_disable (dims : Nat → Int × Int) (stor : WPStorage)
    (t1 t2 : Nat) (hen : isEnabled stor = true) (h2 : t2 < t1 + debounceMs) :
    isEnabled (runTrace dims ⟨stor, none⟩
        [(t1, WPEv.save), (t2, WPEv.setEnabledEv false)]).1.storage = false ∧
    (runTrace dims ⟨stor, none⟩
        [(t1, WPEv.save), (t2, WPEv.setEnabledEv false)]).1.storage.windowSize =
      some (.parsed ⟨(dims (t1 + debounceMs)).1, (dims (t1 + debounceMs)).2,
        ((t1 + debounceMs : Nat) : Int)⟩) ∧
    (runTrace dims ⟨stor, none⟩
        [(t1, WPEv.save), (t2, WPEv.setEnabledEv false)]).2 =
      [⟨(dims (t1 + debounceMs)).1, (dims (t1 + debounceMs)).2,
        ((t1 + debounceMs : Nat) : Int)⟩] := by
  have hs1 : stepEv dims ⟨stor, none⟩ (t1, WPEv.save) =
      (⟨stor, some (t1 + debounceMs)⟩, []) := by
    simp [stepEv, fireDue, hen]
  have hs2 : stepEv dims ⟨stor, some (t1 + debounceMs)⟩ (t2, WPEv.setEnabledEv false) =
      (⟨setEnabled stor false, some (t1 + debounceMs)⟩, []) := by
    simp [stepEv, fireDue, Nat.not_le.mpr h2]
  refine ⟨?_, ?_, ?_⟩ <;>
    simp [runTrace, runEvents, hs1, hs2, runDeferredSave, setEnabled,
      clearWindowSize, isEnabled]

/-- Witness for C9: a save at time 0 followed by `setEnabled(false)` at
time 100 with a constant 1920×1080 window leaves persistence disabled yet
a 1920×1080 record stored, written at time 500. -/
theorem savePending_survives_disable_witness :
    isEnabled (runTrace (fun _ => ((1920 : Int), (1080 : Int))) ⟨⟨none, none⟩, none⟩
        [(0, WPEv.save), (100, WPEv.setEnabledEv false)]).1.storage = false ∧
    (runTrace (fun _ => ((1920 : Int), (1080 : Int))) ⟨⟨none, none⟩, none⟩
        [(0, WPEv.save), (100, WPEv.setEnabledEv false)]).1.storage.windowSize =
      some (.parsed ⟨1920, 1080, 500⟩) ∧
    (runTrace (fun _ => ((1920 : Int), (1080 : Int))) ⟨⟨none, none⟩, none⟩
        [(0, WPEv.save), (100, WPEv.setEnabledEv false)]).2 =
      [⟨1920, 1080, 500⟩] := by
  have h := savePending_survives_disable (fun _ => ((1920 : Int), (1080 : Int)))
    ⟨none, none⟩ 0 100 rfl (by decide)
  simpa [debounceMs] using h

/-- C10: `getSavedWindowSize()` performs no range validation: with
persistence enabled, any parsed stored record — however far outside the
bounds `restoreWindowSize()` enforces — is returned as-is. -/
theorem getSavedWindowSize_no_validation (st : WPStorage) (w : WindowSize)
    (hen : isEnabled st = true) (hst : st.windowSize = some (.parsed w)) :
    getSavedWindowSize st = some w := by
  simp [getSavedWindowSize, hen, hst]

/-- Witness for C10: a stored 200×200 record — which `restoreWindowSize()`
rejects as below minimum — is returned unchanged. -/
theorem getSavedWindowSize_no_validation_witness :
    getSavedWindowSize ⟨some (.parsed ⟨200, 200, 0⟩), none⟩ = some ⟨200, 200, 0⟩ ∧
    (200 : Int) < 400 :=
  ⟨getSavedWindowSize_no_validation ⟨some (.parsed ⟨200, 200, 0⟩), none⟩ ⟨200, 200, 0⟩
      rfl rfl,
    by decide⟩

end WindowPersistenceService
